import Mathlib

/-!
Shallow embedding of the webanalyzer detection and aggregation engine.

The HTML parser (JSDOM) is an external collaborator; a parsed document is
modelled by its query interface: a predicate telling, for each CSS selector
string, whether `querySelector` finds at least one node.  The raw page body
is a plain string, and HTTP headers are an association list of lower-cased
header names to values.
-/

namespace WebAnalyzer

/-- A parsed document, abstracted to its querySelector interface:
`doc sel = true` iff `querySelector(sel)` returns a node. -/
abbrev DocQuery := String → Bool

/-- JS `String.prototype.includes`: case-sensitive substring containment. -/
def jsIncludes (s sub : String) : Bool :=
  decide (sub.data <:+: s.data)

/-- The selector probe `link[href*="<keyword>"]` used by the CSS-framework
detector. -/
def linkSelector (k : String) : String :=
  "link[href*=\"" ++ k ++ "\"]"

/-- The selector probe `script[src*="<keyword>"]` used by the JS-library,
marketing and architecture detectors. -/
def scriptSelector (k : String) : String :=
  "script[src*=\"" ++ k ++ "\"]"

/-- The selector probe `meta[name="generator"][content*="<label>"]` used by
the CMS detector. -/
def generatorSelector (label : String) : String :=
  "meta[name=\"generator\"][content*=\"" ++ label ++ "\"]"

/-- A {name, keyword} detection rule of the multi-match detectors. -/
structure KeywordRule where
  name : String
  keyword : String
deriving DecidableEq

/-- The CSS-framework rule table, in source order. -/
def cssFrameworks : List KeywordRule :=
  [⟨"Bootstrap", "bootstrap"⟩,
   ⟨"Tailwind CSS", "tailwind"⟩,
   ⟨"Bulma", "bulma"⟩,
   ⟨"Foundation", "foundation"⟩,
   ⟨"Materialize", "materialize"⟩,
   ⟨"Semantic UI", "semantic-ui"⟩,
   ⟨"Ant Design", "ant-design"⟩,
   ⟨"Material UI", "material-ui"⟩,
   ⟨"Chakra UI", "chakra-ui"⟩]

/-- A CSS-framework rule fires when the raw HTML contains its keyword or the
`link[href*=...]` probe matches. -/
def cssRuleFires (html : String) (doc : DocQuery) (r : KeywordRule) : Bool :=
  jsIncludes html r.keyword || doc (linkSelector r.keyword)

/-- CSS framework detection: every rule of the table whose keyword occurs in
the HTML or whose link selector matches is pushed, in table order. -/
def detectCssFrameworks (html : String) (doc : DocQuery) : List String :=
  cssFrameworks.foldl
    (fun acc r => if cssRuleFires html doc r then acc ++ [r.name] else acc) []

/-- The JavaScript-library rule table, in source order. -/
def jsLibraries : List KeywordRule :=
  [⟨"React", "react"⟩,
   ⟨"jQuery", "jquery"⟩,
   ⟨"Vue.js", "vue"⟩,
   ⟨"Angular", "angular"⟩,
   ⟨"Lodash", "lodash"⟩,
   ⟨"Moment.js", "moment"⟩,
   ⟨"Axios", "axios"⟩,
   ⟨"D3.js", "d3"⟩,
   ⟨"Redux", "redux"⟩,
   ⟨"Next.js", "next"⟩,
   ⟨"Gatsby", "gatsby"⟩,
   ⟨"Ember", "ember"⟩,
   ⟨"Svelte", "svelte"⟩,
   ⟨"Nuxt.js", "nuxt"⟩,
   ⟨"Apollo GraphQL", "apollo"⟩,
   ⟨"Three.js", "three"⟩]

/-- A JS-library rule fires when the raw HTML contains its keyword or the
`script[src*=...]` probe matches. -/
def jsRuleFires (html : String) (doc : DocQuery) (r : KeywordRule) : Bool :=
  jsIncludes html r.keyword || doc (scriptSelector r.keyword)

/-- JavaScript library detection, same accumulation shape as the CSS one. -/
def detectJavascriptLibraries (html : String) (doc : DocQuery) : List String :=
  jsLibraries.foldl
    (fun acc r => if jsRuleFires html doc r then acc ++ [r.name] else acc) []

/-- A marketing-technology rule: name, keyword, and the literal substring the
source's regex matches (every regex in the table is a literal with escaped
dots, so `/analytics\.js/.test(html)` is a plain substring test). -/
structure MarketingRule where
  name : String
  keyword : String
  regexLit : String
deriving DecidableEq

/-- The marketing-technology rule table, in source order. -/
def marketingTechs : List MarketingRule :=
  [⟨"Google Analytics", "google-analytics", "analytics.js"⟩,
   ⟨"Google Tag Manager", "gtm", "gtm.js"⟩,
   ⟨"Facebook Pixel", "fbevents", "fbevents.js"⟩,
   ⟨"Hotjar", "hotjar", "static.hotjar.com"⟩,
   ⟨"HubSpot", "hubspot", "js.hubspot.com"⟩,
   ⟨"Marketo", "marketo", "marketo.com"⟩,
   ⟨"Salesforce", "salesforce", "salesforce.com"⟩,
   ⟨"Mixpanel", "mixpanel", "cdn.mixpanel.com"⟩,
   ⟨"Crazy Egg", "crazyegg", "crazyegg.com"⟩,
   ⟨"Intercom", "intercom", "intercom.io"⟩,
   ⟨"Kissmetrics", "kissmetrics", "i.kissmetrics.com"⟩,
   ⟨"Heap Analytics", "heap-analytics", "heap.js"⟩,
   ⟨"Segment", "segment", "segment.js"⟩,
   ⟨"Optimizely", "optimizely", "optimizely.js"⟩]

/-- A marketing rule fires when the keyword occurs in the HTML, the script
selector matches, or the regex literal occurs in the HTML. -/
def marketingRuleFires (html : String) (doc : DocQuery) (r : MarketingRule) : Bool :=
  jsIncludes html r.keyword || doc (scriptSelector r.keyword) || jsIncludes html r.regexLit

/-- Marketing technology detection, same accumulation shape. -/
def detectMarketingTechnologies (html : String) (doc : DocQuery) : List String :=
  marketingTechs.foldl
    (fun acc r => if marketingRuleFires html doc r then acc ++ [r.name] else acc) []

/-- CMS detection: the source's fixed if-chain, first hit wins, else the
literal fallback "Unknown". -/
def detectCMS (html : String) (doc : DocQuery) : String :=
  if jsIncludes html "wp-content" || doc (generatorSelector "WordPress") then "WordPress"
  else if jsIncludes html "Drupal" || doc (generatorSelector "Drupal") then "Drupal"
  else if jsIncludes html "Joomla" || doc (generatorSelector "Joomla") then "Joomla"
  else if jsIncludes html "ghost" || doc (generatorSelector "Ghost") then "Ghost"
  else if jsIncludes html "contentful" || doc (generatorSelector "Contentful") then "Contentful"
  else if jsIncludes html "hubspot" || doc (generatorSelector "HubSpot") then "HubSpot"
  else "Unknown"

/-- The CMS if-chain presented as an ordered rule table, used to state the
first-match property. -/
def cmsRules : List (String × (String → DocQuery → Bool)) :=
  [("WordPress", fun html doc => jsIncludes html "wp-content" || doc (generatorSelector "WordPress")),
   ("Drupal", fun html doc => jsIncludes html "Drupal" || doc (generatorSelector "Drupal")),
   ("Joomla", fun html doc => jsIncludes html "Joomla" || doc (generatorSelector "Joomla")),
   ("Ghost", fun html doc => jsIncludes html "ghost" || doc (generatorSelector "Ghost")),
   ("Contentful", fun html doc => jsIncludes html "contentful" || doc (generatorSelector "Contentful")),
   ("HubSpot", fun html doc => jsIncludes html "hubspot" || doc (generatorSelector "HubSpot"))]

/-- An e-commerce rule: name, keyword list, and the literal selector probe
given in the source table. -/
structure EcomRule where
  name : String
  keywords : List String
  selector : String
deriving DecidableEq

/-- The e-commerce platform rule table, in source order (including the
duplicated Squarespace entry of the source). -/
def ecommercePlatforms : List EcomRule :=
  [⟨"Shopify", ["shopify"], "link[href*=\"shopify\"]"⟩,
   ⟨"Magento", ["magento"], "script[src*=\"magento\"]"⟩,
   ⟨"WooCommerce", ["woocommerce"], "link[href*=\"woocommerce\"]"⟩,
   ⟨"BigCommerce", ["bigcommerce"], "link[rel=\"stylesheet\"][href*=\"bigcommerce.com\"]"⟩,
   ⟨"PrestaShop", ["prestashop"], "meta[name=\"generator\"][content*=\"PrestaShop\"]"⟩,
   ⟨"Squarespace", ["squarespace"], "meta[name=\"generator\"][content*=\"Squarespace\"]"⟩,
   ⟨"Wix", ["wixstores"], "meta[name=\"generator\"][content*=\"Wix.com\"]"⟩,
   ⟨"Volusion", ["volusion"], "script[src*=\"volusion\"]"⟩,
   ⟨"3dcart", ["3dcart"], "script[src*=\"3dcart\"]"⟩,
   ⟨"OpenCart", ["opencart"], "meta[name=\"generator\"][content*=\"OpenCart\"]"⟩,
   ⟨"Zen Cart", ["zen-cart"], "meta[name=\"generator\"][content*=\"Zen Cart\"]"⟩,
   ⟨"Squarespace", ["squarespace"], "meta[name=\"generator\"][content*=\"Squarespace\"]"⟩,
   ⟨"Weebly", ["weebly"], "meta[name=\"generator\"][content*=\"Weebly\"]"⟩,
   ⟨"Big Cartel", ["bigcartel"], "meta[name=\"generator\"][content*=\"Big Cartel\"]"⟩,
   ⟨"Yahoo Small Business", ["yahoodotcom"], "meta[name=\"generator\"][content*=\"Yahoo Small Business\"]"⟩,
   ⟨"Ecwid", ["ecwid"], "script[src*=\"ecwid\"]"⟩,
   ⟨"osCommerce", ["oscommerce"], "meta[name=\"generator\"][content*=\"osCommerce\"]"⟩,
   ⟨"Lightspeed", ["lightspeed"], "meta[name=\"generator\"][content*=\"LightSpeed\"]"⟩,
   ⟨"Shopware", ["shopware"], "meta[name=\"generator\"][content*=\"Shopware\"]"⟩,
   ⟨"Hybris", ["hybris"], "script[src*=\"hybris\"]"⟩,
   ⟨"Demandware", ["demandware"], "script[src*=\"demandware\"]"⟩]

/-- An e-commerce rule fires when some keyword occurs in the HTML or its
selector probe matches. -/
def ecomRuleFires (html : String) (doc : DocQuery) (p : EcomRule) : Bool :=
  p.keywords.any (fun k => jsIncludes html k) || doc p.selector

/-- E-commerce platform detection: the source's for-loop returns the first
matching table entry, else "Unknown". -/
def detectEcommercePlatform (html : String) (doc : DocQuery) : String :=
  match ecommercePlatforms.find? (fun p => ecomRuleFires html doc p) with
  | some p => p.name
  | none => "Unknown"

/-- Architecture detection: the source's fixed decision list (SSR, then three
SSG checks, then three SPA checks), defaulting to MPA. -/
def detectArchitecture (html : String) (doc : DocQuery) : String :=
  if doc (scriptSelector "next") || jsIncludes html "__NEXT_DATA__" then
    "SSR (Server-Side Rendering)"
  else if doc (scriptSelector "gatsby") || doc "meta[content=\"Gatsby\"]" then
    "SSG (Static Site Generation)"
  else if doc (scriptSelector "jekyll") || doc "meta[content=\"Jekyll\"]" then
    "SSG (Static Site Generation)"
  else if doc (scriptSelector "hugo") || doc "meta[content=\"Hugo\"]" then
    "SSG (Static Site Generation)"
  else if doc (scriptSelector "single-spa") || doc (scriptSelector "react")
      || jsIncludes html "window.__INITIAL_STATE__" then
    "SPA (Single Page Application)"
  else if doc (scriptSelector "angular") || jsIncludes html "ng-version" then
    "SPA (Single Page Application)"
  else if doc (scriptSelector "vue") || jsIncludes html "window.__INITIAL_STATE__" then
    "SPA (Single Page Application)"
  else "MPA (Multi-Page Application)"

/-- The architecture decision list presented as an ordered rule table, used to
state the first-match property. -/
def archRules : List (String × (String → DocQuery → Bool)) :=
  [("SSR (Server-Side Rendering)",
    fun html doc => doc (scriptSelector "next") || jsIncludes html "__NEXT_DATA__"),
   ("SSG (Static Site Generation)",
    fun _ doc => doc (scriptSelector "gatsby") || doc "meta[content=\"Gatsby\"]"),
   ("SSG (Static Site Generation)",
    fun _ doc => doc (scriptSelector "jekyll") || doc "meta[content=\"Jekyll\"]"),
   ("SSG (Static Site Generation)",
    fun _ doc => doc (scriptSelector "hugo") || doc "meta[content=\"Hugo\"]"),
   ("SPA (Single Page Application)",
    fun html doc => doc (scriptSelector "single-spa") || doc (scriptSelector "react")
      || jsIncludes html "window.__INITIAL_STATE__"),
   ("SPA (Single Page Application)",
    fun html doc => doc (scriptSelector "angular") || jsIncludes html "ng-version"),
   ("SPA (Single Page Application)",
    fun html doc => doc (scriptSelector "vue") || jsIncludes html "window.__INITIAL_STATE__")]

/-- A document that matches no selector at all. -/
def docNone : DocQuery := fun _ => false

/-- Header access `headers[name]`: first binding of the association list. -/
def getHeader (hs : List (String × String)) (n : String) : Option String :=
  hs.lookup n

/-- JS truthiness of a header access: the header is present with a non-empty
string value. -/
def headerTruthy (hs : List (String × String)) (n : String) : Bool :=
  match getHeader hs n with
  | some v => v != ""
  | none => false

/-- CDN detection: the source's fixed decision list over the headers, checked
top to bottom. -/
def detectCdnProvider (hs : List (String × String)) : String :=
  if getHeader hs "x-cdn" == some "Cloudflare" || headerTruthy hs "cf-ray" then
    "Cloudflare"
  else if headerTruthy hs "x-amz-cf-id" then "Amazon CloudFront"
  else if headerTruthy hs "x-fastly-request-id" then "Fastly"
  else if headerTruthy hs "x-akamai-transformed" then "Akamai"
  else if headerTruthy hs "x-cache-status"
      && jsIncludes ((getHeader hs "x-cache-status").getD "") "HIT" then
    "Varnish"
  else
    match getHeader hs "x-cdn-provider" with
    | some v => if v != "" then v else "Unknown"
    | none => "Unknown"

/-- Decoded body of the Who Hosts This API response.  `result` is the result
object's code when that object is present (`none` models a malformed body in
which the result object is missing, whose `.code` access throws in JS);
`results` is the list of `isp_name` values of the results array (`none`
models a missing array). -/
structure ApiBody where
  result : Option Nat
  results : Option (List String)

/-- Outcome of the hosting-lookup API call: either no usable response at all
(network error, timeout, non-JSON body) or a decoded body. -/
inductive ApiOutcome where
  | networkError : ApiOutcome
  | response : ApiBody → ApiOutcome

/-- Hosting provider detection.  The `.networkError` branch and the missing
result object (whose field access throws inside the try) are both caught by
the source's catch and yield "Host Finder Error"; a present result object
with a non-200 code or without a non-empty results list yields "unable to
find provider"; otherwise the first result's ISP name is returned. -/
def detectHostingProvider : ApiOutcome → String
  | .networkError => "Host Finder Error"
  | .response b =>
    match b.result with
    | none => "Host Finder Error"
    | some code =>
      if code = 200 then
        match b.results with
        | some (isp :: _) => "Provider: " ++ isp
        | _ => "unable to find provider"
      else "unable to find provider"

/-! ### The aggregated report and the diagram builder -/

/-- The flat analysis report assembled by `analyzeWebsite`, fields in the
source's object-literal order.  Categories whose inner structure no claim
inspects (histogram and the four nested key-value analyses) are carried as
association lists. -/
structure Analysis where
  html_structure : List (String × Nat)
  css_frameworks : List String
  javascript_libraries : List String
  server_technologies : List String
  hosting_provider : String
  cdn_provider : String
  cms : String
  ecommerce_platform : String
  seo_analysis : List (String × String)
  security_analysis : List (String × String)
  performance_analysis : List (String × String)
  accessibility_analysis : List (String × String)
  architecture : String
  marketing_technologies : List String
  social_links : List String
  robots_txt : String
  sitemap_xml : String
deriving DecidableEq

/-- The double-quote character. -/
def dquoteChar : Char := Char.ofNat 34

/-- The single-quote character. -/
def squoteChar : Char := Char.ofNat 39

/-- JS `s.replace(/"/g, "'")`: every double quote becomes a single quote. -/
def escapeQuotes (s : String) : String :=
  String.mk (s.data.map (fun c => if c = dquoteChar then squoteChar else c))

/-- The identifier produced by `getNextId` for counter value `n`: `N<n>`. -/
def nodeName (n : Nat) : String := "N" ++ Nat.repr n

/-- One `parent --> child[label]` line of the diagram; `quoted` records
whether the label is embedded between double quotes. -/
structure DiagEdge where
  parent : String
  child : String
  label : String
  quoted : Bool
deriving DecidableEq

/-- The label of a clickable social-link leaf; the href is embedded verbatim,
twice, with no escaping. -/
def socialLabel (link : String) : String :=
  "<a href='" ++ link ++ "' target='_blank'>" ++ link ++ "</a>"

/-- The per-item loop of `addNodes`: each item gets a fresh id from the
shared counter and a quoted leaf edge under the category node. -/
def itemEdges (id : String) : List String → Nat → List DiagEdge × Nat
  | [], n => ([], n)
  | item :: rest, n =>
    let r := itemEdges id rest (n + 1)
    (⟨id, nodeName n, escapeQuotes item, true⟩ :: r.1, r.2)

/-- The source's `addNodes(parentId, items, label)`: for a non-empty list, one category
header edge plus one leaf edge per item, all ids drawn from the shared
counter; an empty list emits nothing and leaves the counter unchanged. -/
def addNodes (parentId : String) (items : List String) (label : String) (n : Nat) :
    List DiagEdge × Nat :=
  if items.length > 0 then
    let r := itemEdges (nodeName n) items (n + 1)
    (⟨parentId, nodeName n, label, false⟩ :: r.1, r.2)
  else ([], n)

/-- One `if (value && value !== "Unknown")` scalar block of the source: a
single quoted leaf edge under B, skipped for an empty or "Unknown" value. -/
def scalarEdge (value : String) (tag : String) (n : Nat) : List DiagEdge × Nat :=
  if value ≠ "" ∧ value ≠ "Unknown" then
    ([⟨"B", nodeName n, tag ++ escapeQuotes value, true⟩], n + 1)
  else ([], n)

/-- The clickable social-links block: a header node plus one verbatim link
leaf per entry. -/
def socialItemEdges (id : String) : List String → Nat → List DiagEdge × Nat
  | [], n => ([], n)
  | link :: rest, n =>
    let r := socialItemEdges id rest (n + 1)
    (⟨id, nodeName n, socialLabel link, true⟩ :: r.1, r.2)

/-- The `social_links` block of the source. -/
def socialEdges (links : List String) (n : Nat) : List DiagEdge × Nat :=
  if links.length > 0 then
    let r := socialItemEdges (nodeName n) links (n + 1)
    (⟨"B", nodeName n, "Social Links", false⟩ :: r.1, r.2)
  else ([], n)

/-- The four fixed trailing edges of the diagram. -/
def trailingEdges (n : Nat) : List DiagEdge × Nat :=
  ([⟨"B", nodeName n, "SEO Analysis", false⟩,
    ⟨"B", nodeName (n + 1), "Security Analysis", false⟩,
    ⟨"B", nodeName (n + 2), "Performance Analysis", false⟩,
    ⟨"B", nodeName (n + 3), "Accessibility Analysis", false⟩], n + 4)

/-- All edges the builder appends after the fixed root edge, in emission
order, with the node counter starting at 1 and threaded through every
block exactly as the closure-captured `nodeId` of the source.  (The source
guards the marketing block with a redundant non-empty test that `addNodes`
performs again; the guard changes nothing.) -/
def generateDiagramEdges (a : Analysis) : List DiagEdge :=
  let s1 := addNodes "B" a.css_frameworks "CSS Frameworks" 1
  let s2 := addNodes "B" a.javascript_libraries "JavaScript Libraries" s1.2
  let s3 := addNodes "B" a.server_technologies "Server Technologies" s2.2
  let s4 := scalarEdge a.hosting_provider "Hosting: " s3.2
  let s5 := scalarEdge a.cdn_provider "CDN: " s4.2
  let s6 := scalarEdge a.cms "CMS: " s5.2
  let s7 := scalarEdge a.ecommerce_platform "E-commerce: " s6.2
  let s8 := scalarEdge a.architecture "Architecture: " s7.2
  let s9 := addNodes "B" a.marketing_technologies "Marketing Technologies" s8.2
  let s10 := socialEdges a.social_links s9.2
  let s11 := trailingEdges s10.2
  s1.1 ++ s2.1 ++ s3.1 ++ s4.1 ++ s5.1 ++ s6.1 ++ s7.1 ++ s8.1 ++ s9.1 ++ s10.1 ++ s11.1

/-- Text of one edge line (without the trailing newline). -/
def renderEdge (e : DiagEdge) : String :=
  if e.quoted then
    "  " ++ e.parent ++ " --> " ++ e.child ++ "[\"" ++ e.label ++ "\"]"
  else
    "  " ++ e.parent ++ " --> " ++ e.child ++ "[" ++ e.label ++ "]"

/-- Full diagram text of `generateArchitectureDiagram`: the `graph TD` header, the fixed root edge,
then every generated edge line.  (The source wraps the body in a try/catch
returning "" on error; the body is total, so the catch is unreachable.) -/
def generateArchitectureDiagram (a : Analysis) : String :=
  "graph TD\n" ++ "  A[Client] --> B[Website]\n"
    ++ String.join ((generateDiagramEdges a).map (fun e => renderEdge e ++ "\n"))

/-! ### The aggregator -/

/-- A JS exception as the source's catch block distinguishes it: an axios
error carrying a response, an axios error with a request but no response,
any other `Error` with its message, or a thrown non-`Error` value. -/
inductive JsError where
  | axiosWithResponse (status : Nat) (statusText : String)
  | axiosNoResponse
  | genericError (message : String)
  | nonError
deriving DecidableEq

/-- The message thrown by `analyzeWebsite`'s catch block for each caught
exception. -/
def catchDispatch : JsError → String
  | .axiosWithResponse status statusText =>
      "HTTP error " ++ Nat.repr status ++ ": " ++ statusText
  | .axiosNoResponse =>
      "No response received from the server. The website might be down or blocking our requests."
  | .genericError message =>
      "An unexpected error occurred while analyzing the website: " ++ message
  | .nonError =>
      "An unexpected error occurred while analyzing the website."

/-- The signal-extractor calls made while building the analysis object,
abstracted to their outcomes: each slot either produces its value or throws.
`robots_txt`/`sitemap_xml` fetches catch internally and always produce a
string.  The source wraps none of these calls in its own try/catch. -/
structure Extractors where
  html_structure : Except JsError (List (String × Nat))
  css_frameworks : Except JsError (List String)
  javascript_libraries : Except JsError (List String)
  server_technologies : Except JsError (List String)
  cdn_provider : Except JsError String
  cms : Except JsError String
  ecommerce_platform : Except JsError String
  seo_analysis : Except JsError (List (String × String))
  security_analysis : Except JsError (List (String × String))
  performance_analysis : Except JsError (List (String × String))
  accessibility_analysis : Except JsError (List (String × String))
  architecture : Except JsError String
  marketing_technologies : Except JsError (List String)
  social_links : Except JsError (List String)
  robots_txt : String
  sitemap_xml : String

/-- The value of `analyzeWebsite` on success. -/
structure AnalysisOutput where
  analysis_results : Analysis
  architecture_diagram : String
deriving DecidableEq

/-- The body of `analyzeWebsite`'s try block, with the hosting lookup already
reduced to the provider string it returned (the lookup itself never throws):
the primary fetch, then each extractor in the evaluation order of the
source's object literal; the first exception propagates out. -/
def analyzeBodyWith (fetch : Except JsError Unit) (ext : Extractors) (hp : String) :
    Except JsError AnalysisOutput :=
  match fetch with
  | .error e => .error e
  | .ok _ =>
  match ext.html_structure with
  | .error e => .error e
  | .ok hs =>
  match ext.css_frameworks with
  | .error e => .error e
  | .ok cssF =>
  match ext.javascript_libraries with
  | .error e => .error e
  | .ok jsL =>
  match ext.server_technologies with
  | .error e => .error e
  | .ok srvT =>
  match ext.cdn_provider with
  | .error e => .error e
  | .ok cdn =>
  match ext.cms with
  | .error e => .error e
  | .ok cms =>
  match ext.ecommerce_platform with
  | .error e => .error e
  | .ok ecom =>
  match ext.seo_analysis with
  | .error e => .error e
  | .ok seo =>
  match ext.security_analysis with
  | .error e => .error e
  | .ok sec =>
  match ext.performance_analysis with
  | .error e => .error e
  | .ok perf =>
  match ext.accessibility_analysis with
  | .error e => .error e
  | .ok acc =>
  match ext.architecture with
  | .error e => .error e
  | .ok arch =>
  match ext.marketing_technologies with
  | .error e => .error e
  | .ok mkt =>
  match ext.social_links with
  | .error e => .error e
  | .ok soc =>
  let analysis : Analysis :=
    { html_structure := hs
      css_frameworks := cssF
      javascript_libraries := jsL
      server_technologies := srvT
      hosting_provider := hp
      cdn_provider := cdn
      cms := cms
      ecommerce_platform := ecom
      seo_analysis := seo
      security_analysis := sec
      performance_analysis := perf
      accessibility_analysis := acc
      architecture := arch
      marketing_technologies := mkt
      social_links := soc
      robots_txt := ext.robots_txt
      sitemap_xml := ext.sitemap_xml }
  .ok { analysis_results := analysis
        architecture_diagram := generateArchitectureDiagram analysis }

/-- The source's `analyzeWebsite`: run the try block (hosting lookup first, then the body)
and translate any escaped exception through the catch block.  A `.error`
result is the thrown error; no partial report exists in that case. -/
def analyzeWebsite (fetch : Except JsError Unit) (ext : Extractors)
    (hosting : ApiOutcome) : Except String AnalysisOutput :=
  match analyzeBodyWith fetch ext (detectHostingProvider hosting) with
  | .ok r => .ok r
  | .error e => .error (catchDispatch e)

/-- The outcome of one extractor slot, viewed as an optional exception. -/
def errOf {α : Type} : Except JsError α → Option JsError
  | .error e => some e
  | .ok _ => none

/-- The first extractor exception in evaluation order, if any. -/
def firstExtractorError (ext : Extractors) : Option JsError :=
  (errOf ext.html_structure).orElse fun _ =>
  (errOf ext.css_frameworks).orElse fun _ =>
  (errOf ext.javascript_libraries).orElse fun _ =>
  (errOf ext.server_technologies).orElse fun _ =>
  (errOf ext.cdn_provider).orElse fun _ =>
  (errOf ext.cms).orElse fun _ =>
  (errOf ext.ecommerce_platform).orElse fun _ =>
  (errOf ext.seo_analysis).orElse fun _ =>
  (errOf ext.security_analysis).orElse fun _ =>
  (errOf ext.performance_analysis).orElse fun _ =>
  (errOf ext.accessibility_analysis).orElse fun _ =>
  (errOf ext.architecture).orElse fun _ =>
  (errOf ext.marketing_technologies).orElse fun _ =>
  errOf ext.social_links

/-- The value an extractor slot produced, with a default for the (excluded)
error case; used to state what a fully successful run returns. -/
def okVal {α : Type} (e : Except JsError α) (d : α) : α :=
  match e with
  | .ok v => v
  | .error _ => d

/-- The analysis object a fully successful run assembles. -/
def okAnalysis (ext : Extractors) (hp : String) : Analysis :=
  { html_structure := okVal ext.html_structure []
    css_frameworks := okVal ext.css_frameworks []
    javascript_libraries := okVal ext.javascript_libraries []
    server_technologies := okVal ext.server_technologies []
    hosting_provider := hp
    cdn_provider := okVal ext.cdn_provider ""
    cms := okVal ext.cms ""
    ecommerce_platform := okVal ext.ecommerce_platform ""
    seo_analysis := okVal ext.seo_analysis []
    security_analysis := okVal ext.security_analysis []
    performance_analysis := okVal ext.performance_analysis []
    accessibility_analysis := okVal ext.accessibility_analysis []
    architecture := okVal ext.architecture ""
    marketing_technologies := okVal ext.marketing_technologies []
    social_links := okVal ext.social_links []
    robots_txt := ext.robots_txt
    sitemap_xml := ext.sitemap_xml }

/-! ### Auxiliary definitions used by the verification -/

/-- Textual-prefix property: the characters of `p` are an initial segment of
the characters of `s`. -/
def strStartsWith (p s : String) : Prop := p.data <+: s.data

instance (p s : String) : Decidable (strStartsWith p s) :=
  inferInstanceAs (Decidable (p.data <+: s.data))

/-- A diagram block is well-behaved: it advances the shared counter by
exactly the number of edges it emits, and the children of those edges carry
the consecutive ids starting at the incoming counter value. -/
def SegOk (seg : Nat → List DiagEdge × Nat) : Prop :=
  ∀ n, (seg n).2 = n + (seg n).1.length ∧
    (seg n).1.map DiagEdge.child = (List.range' n (seg n).1.length).map nodeName

/-- Sequential composition of diagram blocks through the shared counter. -/
def runSegs : List (Nat → List DiagEdge × Nat) → Nat → List DiagEdge × Nat
  | [], n => ([], n)
  | f :: fs, n => ((f n).1 ++ (runSegs fs (f n).2).1, (runSegs fs (f n).2).2)

/-- The diagram blocks of `generateDiagramEdges`, in emission order. -/
def gdeSegs (a : Analysis) : List (Nat → List DiagEdge × Nat) :=
  [addNodes "B" a.css_frameworks "CSS Frameworks",
   addNodes "B" a.javascript_libraries "JavaScript Libraries",
   addNodes "B" a.server_technologies "Server Technologies",
   scalarEdge a.hosting_provider "Hosting: ",
   scalarEdge a.cdn_provider "CDN: ",
   scalarEdge a.cms "CMS: ",
   scalarEdge a.ecommerce_platform "E-commerce: ",
   scalarEdge a.architecture "Architecture: ",
   addNodes "B" a.marketing_technologies "Marketing Technologies",
   socialEdges a.social_links,
   trailingEdges]

/-- A report with its hosting field blanked, used to state that everything
except the hosting category is independent of the hosting lookup. -/
def reportSansHosting (out : AnalysisOutput) : Analysis :=
  { out.analysis_results with hosting_provider := "" }

/-- An extractor record in which every slot succeeds with its empty value. -/
def okExtractors : Extractors :=
  ⟨.ok [], .ok [], .ok [], .ok [], .ok "", .ok "", .ok "", .ok [], .ok [], .ok [],
   .ok [], .ok "", .ok [], .ok [], "", ""⟩

/-- Extractors in which only the CSS-framework detector throws. -/
def throwingExtractors : Extractors :=
  { okExtractors with css_frameworks := .error (.genericError "boom") }

/-- Headers carrying both the CloudFront id header and the generic provider
header, and nothing else. -/
def cdnHeadersOk : List (String × String) :=
  [("x-amz-cf-id", "abc"), ("x-cdn-provider", "Foo")]

/-- Headers carrying a Cloudflare ray id alongside the CloudFront id header
and the generic provider header. -/
def cdnHeadersCex : List (String × String) :=
  [("cf-ray", "ray123"), ("x-amz-cf-id", "abc"), ("x-cdn-provider", "Foo")]

/-- A report every scalar category of which is "Unknown" and every list of
which is empty. -/
def allUnknownAnalysis : Analysis :=
  ⟨[], [], [], [], "Unknown", "Unknown", "Unknown", "Unknown", [], [], [], [],
   "Unknown", [], [], "", ""⟩

/-- A social link containing a double quote. -/
def quoteLink : String := String.mk ['x', dquoteChar, 'y']

/-- A report whose only content is one social link containing a double
quote. -/
def socialCexAnalysis : Analysis :=
  ⟨[], [], [], [], "Unknown", "Unknown", "Unknown", "Unknown", [], [], [], [],
   "Unknown", [], [quoteLink], "", ""⟩

/-- A report whose hosting lookup failed with the "unable to find provider"
sentinel. -/
def hostingSentinelAnalysis : Analysis :=
  ⟨[], [], [], [], "unable to find provider", "Unknown", "Unknown", "Unknown",
   [], [], [], [], "Unknown", [], [], "", ""⟩

/-! ### Decimal rendering of the node counter is injective -/

/-- Decimal digit characters of `n`, most significant first. -/
def decDigits (n : Nat) : List Char :=
  if _h : n < 10 then [Nat.digitChar n]
  else decDigits (n / 10) ++ [Nat.digitChar (n % 10)]
termination_by n
decreasing_by
  simp_wf
  exact Nat.div_lt_self (by omega) (by omega)

lemma decDigits_lt {n : Nat} (h : n < 10) : decDigits n = [Nat.digitChar n] := by
  rw [decDigits]
  simp [h]

lemma decDigits_ge {n : Nat} (h : ¬ n < 10) :
    decDigits n = decDigits (n / 10) ++ [Nat.digitChar (n % 10)] := by
  rw [decDigits]
  simp [h]

lemma decDigits_ne_nil (n : Nat) : decDigits n ≠ [] := by
  by_cases h : n < 10
  · rw [decDigits_lt h]
    simp
  · rw [decDigits_ge h]
    simp

lemma toDigitsCore_eq_decDigits :
    ∀ (f n : Nat) (l : List Char), n < f →
      Nat.toDigitsCore 10 f n l = decDigits n ++ l := by
  intro f
  induction f with
  | zero =>
    intro n l h
    omega
  | succ f ih =>
    intro n l h
    by_cases h10 : n / 10 = 0
    · have hn : n < 10 := by omega
      simp only [Nat.toDigitsCore, h10, if_true]
      rw [decDigits_lt hn, Nat.mod_eq_of_lt hn]
      rfl
    · have hn : ¬ n < 10 := by
        intro hlt
        exact h10 (Nat.div_eq_of_lt hlt)
      have hdivlt : n / 10 < f := by
        have h1 : n / 10 < n := Nat.div_lt_self (by omega) (by omega)
        omega
      simp only [Nat.toDigitsCore, h10, if_false]
      rw [ih (n / 10) (Nat.digitChar (n % 10) :: l) hdivlt, decDigits_ge hn,
        List.append_assoc]
      rfl

lemma repr_eq_decDigits (n : Nat) : Nat.repr n = (decDigits n).asString := by
  show (Nat.toDigits 10 n).asString = (decDigits n).asString
  rw [show Nat.toDigits 10 n = Nat.toDigitsCore 10 (n + 1) n [] from rfl,
    toDigitsCore_eq_decDigits (n + 1) n [] (Nat.lt_succ_self n), List.append_nil]

lemma digitChar_inj_lt :
    ∀ a < 10, ∀ b < 10, Nat.digitChar a = Nat.digitChar b → a = b := by
  decide

lemma decDigits_inj : ∀ m n : Nat, decDigits m = decDigits n → m = n := by
  intro m
  induction m using Nat.strong_induction_on with
  | _ m ih =>
    intro n h
    by_cases hm : m < 10
    · by_cases hn : n < 10
      · rw [decDigits_lt hm, decDigits_lt hn] at h
        simp only [List.cons.injEq, and_true] at h
        exact digitChar_inj_lt m hm n hn h
      · exfalso
        rw [decDigits_lt hm, decDigits_ge hn] at h
        have hlen := congrArg List.length h
        simp at hlen
        exact decDigits_ne_nil _ hlen
    · by_cases hn : n < 10
      · exfalso
        rw [decDigits_ge hm, decDigits_lt hn] at h
        have hlen := congrArg List.length h
        simp at hlen
        exact decDigits_ne_nil _ hlen
      · rw [decDigits_ge hm, decDigits_ge hn] at h
        obtain ⟨h1, h2⟩ := List.append_inj' h rfl
        simp only [List.cons.injEq, and_true] at h2
        have hmod : m % 10 = n % 10 :=
          digitChar_inj_lt _ (Nat.mod_lt _ (by omega)) _ (Nat.mod_lt _ (by omega)) h2
        have hdiv : m / 10 = n / 10 :=
          ih (m / 10) (Nat.div_lt_self (by omega) (by omega)) (n / 10) h1
        omega

lemma natRepr_inj {m n : Nat} (h : Nat.repr m = Nat.repr n) : m = n := by
  apply decDigits_inj
  rw [repr_eq_decDigits, repr_eq_decDigits] at h
  exact congrArg String.data h

lemma nodeName_inj {m n : Nat} (h : nodeName m = nodeName n) : m = n := by
  apply natRepr_inj
  have hd := congrArg String.data h
  simp only [nodeName, String.data_append] at hd
  have : (Nat.repr m).data = (Nat.repr n).data := by
    simpa using hd
  calc Nat.repr m = ⟨(Nat.repr m).data⟩ := rfl
    _ = ⟨(Nat.repr n).data⟩ := by rw [this]
    _ = Nat.repr n := rfl

/-! ### Characterization of the aggregator's control flow -/

lemma analyzeBodyWith_char (fetch : Except JsError Unit) (ext : Extractors) (hp : String) :
    analyzeBodyWith fetch ext hp =
      match fetch with
      | .error e => .error e
      | .ok _ =>
        match firstExtractorError ext with
        | some e => .error e
        | none =>
          .ok { analysis_results := okAnalysis ext hp
                architecture_diagram := generateArchitectureDiagram (okAnalysis ext hp) } := by
  cases fetch with
  | error e => rfl
  | ok u =>
    obtain ⟨f1, f2, f3, f4, f5, f6, f7, f8, f9, f10, f11, f12, f13, f14, rb, sm⟩ := ext
    cases f1 with
    | error e => rfl
    | ok v1 =>
    cases f2 with
    | error e => rfl
    | ok v2 =>
    cases f3 with
    | error e => rfl
    | ok v3 =>
    cases f4 with
    | error e => rfl
    | ok v4 =>
    cases f5 with
    | error e => rfl
    | ok v5 =>
    cases f6 with
    | error e => rfl
    | ok v6 =>
    cases f7 with
    | error e => rfl
    | ok v7 =>
    cases f8 with
    | error e => rfl
    | ok v8 =>
    cases f9 with
    | error e => rfl
    | ok v9 =>
    cases f10 with
    | error e => rfl
    | ok v10 =>
    cases f11 with
    | error e => rfl
    | ok v11 =>
    cases f12 with
    | error e => rfl
    | ok v12 =>
    cases f13 with
    | error e => rfl
    | ok v13 =>
    cases f14 with
    | error e => rfl
    | ok v14 => rfl

/-! ### Structural lemmas about the diagram builder -/

lemma nodeName_ne_B (n : Nat) : nodeName n ≠ "B" := by
  intro h
  have hd := congrArg String.data h
  simp only [nodeName, String.data_append] at hd
  have hh := congrArg List.head? hd
  simp at hh

lemma itemEdges_mem (id : String) :
    ∀ (items : List String) (n : Nat) (e : DiagEdge),
      e ∈ (itemEdges id items n).1 →
      ∃ item, item ∈ items ∧ ∃ m, e = ⟨id, nodeName m, escapeQuotes item, true⟩ := by
  intro items
  induction items with
  | nil => intro n e he; simp [itemEdges] at he
  | cons x xs ih =>
    intro n e he
    simp only [itemEdges] at he
    rcases List.mem_cons.mp he with h | h
    · exact ⟨x, List.mem_cons_self x xs, n, h⟩
    · obtain ⟨item, hmem, m, hm⟩ := ih (n + 1) e h
      exact ⟨item, List.mem_cons_of_mem _ hmem, m, hm⟩

lemma socialItemEdges_mem (id : String) :
    ∀ (links : List String) (n : Nat) (e : DiagEdge),
      e ∈ (socialItemEdges id links n).1 →
      ∃ l, l ∈ links ∧ ∃ m, e = ⟨id, nodeName m, socialLabel l, true⟩ := by
  intro links
  induction links with
  | nil => intro n e he; simp [socialItemEdges] at he
  | cons x xs ih =>
    intro n e he
    simp only [socialItemEdges] at he
    rcases List.mem_cons.mp he with h | h
    · exact ⟨x, List.mem_cons_self x xs, n, h⟩
    · obtain ⟨l, hmem, m, hm⟩ := ih (n + 1) e h
      exact ⟨l, List.mem_cons_of_mem _ hmem, m, hm⟩

lemma addNodes_mem (pid : String) (items : List String) (label : String) (n : Nat)
    (e : DiagEdge) (he : e ∈ (addNodes pid items label n).1) :
    e = ⟨pid, nodeName n, label, false⟩ ∨
      ∃ item, item ∈ items ∧ ∃ m, e = ⟨nodeName n, nodeName m, escapeQuotes item, true⟩ := by
  unfold addNodes at he
  by_cases hl : items.length > 0
  · rw [if_pos hl] at he
    rcases List.mem_cons.mp he with h | h
    · exact Or.inl h
    · exact Or.inr (itemEdges_mem (nodeName n) items (n + 1) e h)
  · rw [if_neg hl] at he
    simp at he

lemma socialEdges_mem (links : List String) (n : Nat) (e : DiagEdge)
    (he : e ∈ (socialEdges links n).1) :
    e = ⟨"B", nodeName n, "Social Links", false⟩ ∨
      ∃ l, l ∈ links ∧ ∃ m, e = ⟨nodeName n, nodeName m, socialLabel l, true⟩ := by
  unfold socialEdges at he
  by_cases hl : links.length > 0
  · rw [if_pos hl] at he
    rcases List.mem_cons.mp he with h | h
    · exact Or.inl h
    · exact Or.inr (socialItemEdges_mem (nodeName n) links (n + 1) e h)
  · rw [if_neg hl] at he
    simp at he

lemma scalarEdge_mem (v tag : String) (n : Nat) (e : DiagEdge)
    (he : e ∈ (scalarEdge v tag n).1) :
    v ≠ "" ∧ v ≠ "Unknown" ∧ e = ⟨"B", nodeName n, tag ++ escapeQuotes v, true⟩ := by
  unfold scalarEdge at he
  by_cases hc : v ≠ "" ∧ v ≠ "Unknown"
  · rw [if_pos hc] at he
    simp at he
    exact ⟨hc.1, hc.2, he⟩
  · rw [if_neg hc] at he
    simp at he

lemma trailingEdges_mem (n : Nat) (e : DiagEdge) (he : e ∈ (trailingEdges n).1) :
    e.parent = "B" ∧ e.quoted = false ∧
      (e.label = "SEO Analysis" ∨ e.label = "Security Analysis" ∨
       e.label = "Performance Analysis" ∨ e.label = "Accessibility Analysis") := by
  simp only [trailingEdges] at he
  rcases List.mem_cons.mp he with h | he
  · subst h; simp
  rcases List.mem_cons.mp he with h | he
  · subst h; simp
  rcases List.mem_cons.mp he with h | he
  · subst h; simp
  rcases List.mem_cons.mp he with h | he
  · subst h; simp
  · simp at he

lemma mem_gde_cases (a : Analysis) (e : DiagEdge) (he : e ∈ generateDiagramEdges a) :
    (∃ n, e ∈ (addNodes "B" a.css_frameworks "CSS Frameworks" n).1) ∨
    (∃ n, e ∈ (addNodes "B" a.javascript_libraries "JavaScript Libraries" n).1) ∨
    (∃ n, e ∈ (addNodes "B" a.server_technologies "Server Technologies" n).1) ∨
    (∃ n, e ∈ (scalarEdge a.hosting_provider "Hosting: " n).1) ∨
    (∃ n, e ∈ (scalarEdge a.cdn_provider "CDN: " n).1) ∨
    (∃ n, e ∈ (scalarEdge a.cms "CMS: " n).1) ∨
    (∃ n, e ∈ (scalarEdge a.ecommerce_platform "E-commerce: " n).1) ∨
    (∃ n, e ∈ (scalarEdge a.architecture "Architecture: " n).1) ∨
    (∃ n, e ∈ (addNodes "B" a.marketing_technologies "Marketing Technologies" n).1) ∨
    (∃ n, e ∈ (socialEdges a.social_links n).1) ∨
    (∃ n, e ∈ (trailingEdges n).1) := by
  unfold generateDiagramEdges at he
  rcases List.mem_append.mp he with he | h
  · rcases List.mem_append.mp he with he | h
    · rcases List.mem_append.mp he with he | h
      · rcases List.mem_append.mp he with he | h
        · rcases List.mem_append.mp he with he | h
          · rcases List.mem_append.mp he with he | h
            · rcases List.mem_append.mp he with he | h
              · rcases List.mem_append.mp he with he | h
                · rcases List.mem_append.mp he with he | h
                  · rcases List.mem_append.mp he with he | h
                    · exact Or.inl ⟨_, he⟩
                    · exact Or.inr (Or.inl ⟨_, h⟩)
                  · exact Or.inr (Or.inr (Or.inl ⟨_, h⟩))
                · exact Or.inr (Or.inr (Or.inr (Or.inl ⟨_, h⟩)))
              · exact Or.inr (Or.inr (Or.inr (Or.inr (Or.inl ⟨_, h⟩))))
            · exact Or.inr (Or.inr (Or.inr (Or.inr (Or.inr (Or.inl ⟨_, h⟩)))))
          · exact Or.inr (Or.inr (Or.inr (Or.inr (Or.inr (Or.inr (Or.inl ⟨_, h⟩))))))
        · exact Or.inr (Or.inr (Or.inr (Or.inr (Or.inr (Or.inr (Or.inr (Or.inl ⟨_, h⟩)))))))
      · exact Or.inr (Or.inr (Or.inr (Or.inr (Or.inr (Or.inr (Or.inr (Or.inr (Or.inl ⟨_, h⟩))))))))
    · exact Or.inr (Or.inr (Or.inr (Or.inr (Or.inr (Or.inr (Or.inr (Or.inr (Or.inr (Or.inl ⟨_, h⟩)))))))))
  · exact Or.inr (Or.inr (Or.inr (Or.inr (Or.inr (Or.inr (Or.inr (Or.inr (Or.inr (Or.inr ⟨_, h⟩)))))))))

lemma not_prefix_append_take {p q : List Char} (k : Nat) (hkp : k ≤ p.length)
    (hkq : k ≤ q.length) (hne : p.take k ≠ q.take k) (v : List Char) :
    ¬ p <+: q ++ v := by
  intro hp
  apply hne
  rw [List.prefix_iff_eq_take] at hp
  conv_lhs => rw [hp]
  rw [List.take_take, Nat.min_eq_left hkp, List.take_append_of_le_length hkq]

lemma strStartsWith_tag_elim {p q : String} (k : Nat) (v : String)
    (hkp : k ≤ p.data.length) (hkq : k ≤ q.data.length)
    (hne : p.data.take k ≠ q.data.take k) :
    ¬ strStartsWith p (q ++ v) := by
  unfold strStartsWith
  rw [String.data_append]
  exact not_prefix_append_take k hkp hkq hne v.data

/-- Every edge under the root node B carries either one of the nine fixed
category labels or one of the five tagged scalar labels, the latter present
only when the scalar value is neither empty nor "Unknown". -/
lemma gde_parentB_label (a : Analysis) (e : DiagEdge)
    (he : e ∈ generateDiagramEdges a) (hp : e.parent = "B") :
    e.label ∈ (["CSS Frameworks", "JavaScript Libraries", "Server Technologies",
      "Marketing Technologies", "Social Links", "SEO Analysis", "Security Analysis",
      "Performance Analysis", "Accessibility Analysis"] : List String) ∨
    (a.hosting_provider ≠ "Unknown" ∧ e.label = "Hosting: " ++ escapeQuotes a.hosting_provider) ∨
    (a.cdn_provider ≠ "Unknown" ∧ e.label = "CDN: " ++ escapeQuotes a.cdn_provider) ∨
    (a.cms ≠ "Unknown" ∧ e.label = "CMS: " ++ escapeQuotes a.cms) ∨
    (a.ecommerce_platform ≠ "Unknown" ∧ e.label = "E-commerce: " ++ escapeQuotes a.ecommerce_platform) ∨
    (a.architecture ≠ "Unknown" ∧ e.label = "Architecture: " ++ escapeQuotes a.architecture) := by
  rcases mem_gde_cases a e he with ⟨n, h⟩ | ⟨n, h⟩ | ⟨n, h⟩ | ⟨n, h⟩ | ⟨n, h⟩ | ⟨n, h⟩
    | ⟨n, h⟩ | ⟨n, h⟩ | ⟨n, h⟩ | ⟨n, h⟩ | ⟨n, h⟩
  · rcases addNodes_mem _ _ _ _ _ h with rfl | ⟨item, _, m, rfl⟩
    · exact Or.inl (by simp)
    · exact absurd hp (nodeName_ne_B n)
  · rcases addNodes_mem _ _ _ _ _ h with rfl | ⟨item, _, m, rfl⟩
    · exact Or.inl (by simp)
    · exact absurd hp (nodeName_ne_B n)
  · rcases addNodes_mem _ _ _ _ _ h with rfl | ⟨item, _, m, rfl⟩
    · exact Or.inl (by simp)
    · exact absurd hp (nodeName_ne_B n)
  · obtain ⟨_, hu, rfl⟩ := scalarEdge_mem _ _ _ _ h
    exact Or.inr (Or.inl ⟨hu, rfl⟩)
  · obtain ⟨_, hu, rfl⟩ := scalarEdge_mem _ _ _ _ h
    exact Or.inr (Or.inr (Or.inl ⟨hu, rfl⟩))
  · obtain ⟨_, hu, rfl⟩ := scalarEdge_mem _ _ _ _ h
    exact Or.inr (Or.inr (Or.inr (Or.inl ⟨hu, rfl⟩)))
  · obtain ⟨_, hu, rfl⟩ := scalarEdge_mem _ _ _ _ h
    exact Or.inr (Or.inr (Or.inr (Or.inr (Or.inl ⟨hu, rfl⟩))))
  · obtain ⟨_, hu, rfl⟩ := scalarEdge_mem _ _ _ _ h
    exact Or.inr (Or.inr (Or.inr (Or.inr (Or.inr ⟨hu, rfl⟩))))
  · rcases addNodes_mem _ _ _ _ _ h with rfl | ⟨item, _, m, rfl⟩
    · exact Or.inl (by simp)
    · exact absurd hp (nodeName_ne_B n)
  · rcases socialEdges_mem _ _ _ h with rfl | ⟨l, _, m, rfl⟩
    · exact Or.inl (by simp)
    · exact absurd hp (nodeName_ne_B n)
  · obtain ⟨_, _, hl⟩ := trailingEdges_mem _ _ h
    rcases hl with hl | hl | hl | hl <;> exact Or.inl (by simp [hl])

/-! ### Node-id bookkeeping: every block consumes a contiguous id range -/

lemma itemEdges_segOk (id : String) (items : List String) :
    SegOk (itemEdges id items) := by
  induction items with
  | nil => intro n; simp [itemEdges]
  | cons x xs ih =>
    intro n
    obtain ⟨h1, h2⟩ := ih (n + 1)
    refine ⟨?_, ?_⟩
    · simp only [itemEdges, List.length_cons, h1]
      omega
    · simp only [itemEdges, List.map_cons, List.length_cons, h2, List.range'_succ]

lemma socialItemEdges_segOk (id : String) (links : List String) :
    SegOk (socialItemEdges id links) := by
  induction links with
  | nil => intro n; simp [socialItemEdges]
  | cons x xs ih =>
    intro n
    obtain ⟨h1, h2⟩ := ih (n + 1)
    refine ⟨?_, ?_⟩
    · simp only [socialItemEdges, List.length_cons, h1]
      omega
    · simp only [socialItemEdges, List.map_cons, List.length_cons, h2, List.range'_succ]

lemma addNodes_segOk (pid : String) (items : List String) (label : String) :
    SegOk (addNodes pid items label) := by
  intro n
  unfold addNodes
  by_cases hl : items.length > 0
  · rw [if_pos hl]
    obtain ⟨h1, h2⟩ := itemEdges_segOk (nodeName n) items (n + 1)
    refine ⟨?_, ?_⟩
    · simp only [List.length_cons, h1]
      omega
    · simp only [List.map_cons, List.length_cons, h2, List.range'_succ]
  · rw [if_neg hl]
    simp

lemma socialEdges_segOk (links : List String) : SegOk (socialEdges links) := by
  intro n
  unfold socialEdges
  by_cases hl : links.length > 0
  · rw [if_pos hl]
    obtain ⟨h1, h2⟩ := socialItemEdges_segOk (nodeName n) links (n + 1)
    refine ⟨?_, ?_⟩
    · simp only [List.length_cons, h1]
      omega
    · simp only [List.map_cons, List.length_cons, h2, List.range'_succ]
  · rw [if_neg hl]
    simp

lemma scalarEdge_segOk (v tag : String) : SegOk (scalarEdge v tag) := by
  intro n
  unfold scalarEdge
  by_cases hc : v ≠ "" ∧ v ≠ "Unknown"
  · rw [if_pos hc]
    simp
  · rw [if_neg hc]
    simp

lemma trailingEdges_segOk : SegOk trailingEdges := by
  intro n
  refine ⟨by simp [trailingEdges], ?_⟩
  show [nodeName n, nodeName (n + 1), nodeName (n + 2), nodeName (n + 3)]
    = (List.range' n 4).map nodeName
  have : List.range' n 4 = [n, n + 1, n + 2, n + 3] := by
    simp [List.range', Nat.add_assoc]
  rw [this]
  simp

lemma runSegs_segOk (fs : List (Nat → List DiagEdge × Nat))
    (h : ∀ f ∈ fs, SegOk f) : SegOk (runSegs fs) := by
  induction fs with
  | nil => intro n; simp [runSegs]
  | cons f fs ih =>
    intro n
    obtain ⟨h1, h2⟩ := h f (List.mem_cons_self f fs) n
    obtain ⟨h3, h4⟩ := ih (fun g hg => h g (List.mem_cons_of_mem f hg)) ((f n).2)
    refine ⟨?_, ?_⟩
    · simp only [runSegs, List.length_append]
      rw [h1] at h3 ⊢
      omega
    · simp only [runSegs, List.map_append, List.length_append]
      rw [h1] at h4 ⊢
      rw [h2, h4, ← List.map_append, List.range'_append_1,
        Nat.add_comm ((runSegs fs (n + (f n).1.length)).1.length) ((f n).1.length)]

lemma gde_eq_runSegs (a : Analysis) :
    generateDiagramEdges a = (runSegs (gdeSegs a) 1).1 := by
  unfold generateDiagramEdges gdeSegs
  simp [runSegs, List.append_assoc]

lemma gde_children (a : Analysis) :
    ∃ k, (generateDiagramEdges a).map DiagEdge.child = (List.range' 1 k).map nodeName := by
  rw [gde_eq_runSegs]
  have hall : ∀ f ∈ gdeSegs a, SegOk f := by
    intro f hf
    unfold gdeSegs at hf
    simp only [List.mem_cons, List.not_mem_nil, or_false] at hf
    rcases hf with rfl | rfl | rfl | rfl | rfl | rfl | rfl | rfl | rfl | rfl | rfl
    · exact addNodes_segOk _ _ _
    · exact addNodes_segOk _ _ _
    · exact addNodes_segOk _ _ _
    · exact scalarEdge_segOk _ _
    · exact scalarEdge_segOk _ _
    · exact scalarEdge_segOk _ _
    · exact scalarEdge_segOk _ _
    · exact scalarEdge_segOk _ _
    · exact addNodes_segOk _ _ _
    · exact socialEdges_segOk _
    · exact trailingEdges_segOk
  exact ⟨_, (runSegs_segOk (gdeSegs a) hall 1).2⟩

/-! ### Escaping lemmas -/

lemma escapeQuotes_no_dquote (s : String) : dquoteChar ∉ (escapeQuotes s).data := by
  intro hmem
  have hmem' : dquoteChar ∈ s.data.map (fun c => if c = dquoteChar then squoteChar else c) := hmem
  rcases List.mem_map.mp hmem' with ⟨c, _, hc⟩
  by_cases hcd : c = dquoteChar
  · rw [if_pos hcd] at hc
    exact absurd hc (by decide)
  · rw [if_neg hcd] at hc
    exact hcd hc

lemma escapeQuotes_eq_self {s : String} (h : dquoteChar ∉ s.data) : escapeQuotes s = s := by
  unfold escapeQuotes
  have h2 : ∀ c ∈ s.data, (if c = dquoteChar then squoteChar else c) = c := by
    intro c hc
    rw [if_neg]
    intro hcd
    exact h (hcd ▸ hc)
  have h3 : s.data.map (fun c => if c = dquoteChar then squoteChar else c) = s.data := by
    have h4 := List.map_congr_left h2
    simpa using h4
  rw [h3]

/-- Every quoted label in the diagram is either an escaped item string, a
scalar tag followed by an escaped value, or a verbatim social-link label. -/
lemma gde_quoted_label (a : Analysis) (e : DiagEdge)
    (he : e ∈ generateDiagramEdges a) (hq : e.quoted = true) :
    (∃ s, e.label = escapeQuotes s) ∨
    (∃ t s, (t = "Hosting: " ∨ t = "CDN: " ∨ t = "CMS: " ∨ t = "E-commerce: " ∨
        t = "Architecture: ") ∧ e.label = t ++ escapeQuotes s) ∨
    (∃ l, e.label = socialLabel l) := by
  rcases mem_gde_cases a e he with ⟨n, h⟩ | ⟨n, h⟩ | ⟨n, h⟩ | ⟨n, h⟩ | ⟨n, h⟩ | ⟨n, h⟩
    | ⟨n, h⟩ | ⟨n, h⟩ | ⟨n, h⟩ | ⟨n, h⟩ | ⟨n, h⟩
  · rcases addNodes_mem _ _ _ _ _ h with rfl | ⟨item, _, m, rfl⟩
    · simp at hq
    · exact Or.inl ⟨item, rfl⟩
  · rcases addNodes_mem _ _ _ _ _ h with rfl | ⟨item, _, m, rfl⟩
    · simp at hq
    · exact Or.inl ⟨item, rfl⟩
  · rcases addNodes_mem _ _ _ _ _ h with rfl | ⟨item, _, m, rfl⟩
    · simp at hq
    · exact Or.inl ⟨item, rfl⟩
  · obtain ⟨_, _, rfl⟩ := scalarEdge_mem _ _ _ _ h
    exact Or.inr (Or.inl ⟨"Hosting: ", _, by simp, rfl⟩)
  · obtain ⟨_, _, rfl⟩ := scalarEdge_mem _ _ _ _ h
    exact Or.inr (Or.inl ⟨"CDN: ", _, by simp, rfl⟩)
  · obtain ⟨_, _, rfl⟩ := scalarEdge_mem _ _ _ _ h
    exact Or.inr (Or.inl ⟨"CMS: ", _, by simp, rfl⟩)
  · obtain ⟨_, _, rfl⟩ := scalarEdge_mem _ _ _ _ h
    exact Or.inr (Or.inl ⟨"E-commerce: ", _, by simp, rfl⟩)
  · obtain ⟨_, _, rfl⟩ := scalarEdge_mem _ _ _ _ h
    exact Or.inr (Or.inl ⟨"Architecture: ", _, by simp, rfl⟩)
  · rcases addNodes_mem _ _ _ _ _ h with rfl | ⟨item, _, m, rfl⟩
    · simp at hq
    · exact Or.inl ⟨item, rfl⟩
  · rcases socialEdges_mem _ _ _ h with rfl | ⟨l, _, m, rfl⟩
    · simp at hq
    · exact Or.inr (Or.inr ⟨l, rfl⟩)
  · obtain ⟨_, hq2, _⟩ := trailingEdges_mem _ _ h
    rw [hq] at hq2
    exact absurd hq2 (by decide)

/-- No fixed category label starts with a scalar tag. -/
lemma fixed_no_scalar_tag {l : String}
    (hl : l ∈ (["CSS Frameworks", "JavaScript Libraries", "Server Technologies",
      "Marketing Technologies", "Social Links", "SEO Analysis", "Security Analysis",
      "Performance Analysis", "Accessibility Analysis"] : List String))
    {tag : String}
    (ht : tag = "Hosting: " ∨ tag = "CDN: " ∨ tag = "CMS: " ∨ tag = "E-commerce: " ∨
      tag = "Architecture: ") :
    ¬ strStartsWith tag l := by
  simp only [List.mem_cons, List.not_mem_nil, or_false] at hl
  rcases ht with rfl | rfl | rfl | rfl | rfl <;>
    rcases hl with rfl | rfl | rfl | rfl | rfl | rfl | rfl | rfl | rfl <;> decide

/-! ### The multi-match accumulation shape -/

lemma foldl_push_filter {α : Type} (p : α → Bool) (f : α → String) :
    ∀ (l : List α) (acc : List String),
      l.foldl (fun acc r => if p r then acc ++ [f r] else acc) acc
        = acc ++ (l.filter p).map f := by
  intro l
  induction l with
  | nil => intro acc; simp
  | cons x xs ih =>
    intro acc
    simp only [List.foldl_cons]
    by_cases hp : p x = true
    · rw [if_pos hp, ih, List.filter_cons_of_pos hp]
      simp [List.append_assoc]
    · rw [if_neg hp, ih, List.filter_cons_of_neg]
      simp only [Bool.not_eq_true] at hp
      simp [hp]

/-! ### Claim theorems -/

/-- C3: For every multi-match detector (CSS frameworks, JavaScript libraries,
marketing technologies) and every rule in its table, the rule's label is
emitted whenever the raw HTML contains the rule's keyword as a case-sensitive
substring alone, or the corresponding CSS-selector probe matches alone; the
output is exactly the rule table filtered by the firing test and mapped to
names, so labels appear in rule-table order with each rule contributing at
most once. -/
theorem multi_match_detectors_or_and_order (html : String) (doc : DocQuery) :
    detectCssFrameworks html doc
      = (cssFrameworks.filter (cssRuleFires html doc)).map KeywordRule.name ∧
    detectJavascriptLibraries html doc
      = (jsLibraries.filter (jsRuleFires html doc)).map KeywordRule.name ∧
    detectMarketingTechnologies html doc
      = (marketingTechs.filter (marketingRuleFires html doc)).map MarketingRule.name ∧
    (∀ r ∈ cssFrameworks,
      jsIncludes html r.keyword = true ∨ doc (linkSelector r.keyword) = true →
      r.name ∈ detectCssFrameworks html doc) ∧
    (∀ r ∈ jsLibraries,
      jsIncludes html r.keyword = true ∨ doc (scriptSelector r.keyword) = true →
      r.name ∈ detectJavascriptLibraries html doc) ∧
    (∀ r ∈ marketingTechs,
      jsIncludes html r.keyword = true ∨ doc (scriptSelector r.keyword) = true →
      r.name ∈ detectMarketingTechnologies html doc) := by
  have hcss : detectCssFrameworks html doc
      = (cssFrameworks.filter (cssRuleFires html doc)).map KeywordRule.name := by
    unfold detectCssFrameworks
    rw [foldl_push_filter]
    simp
  have hjs : detectJavascriptLibraries html doc
      = (jsLibraries.filter (jsRuleFires html doc)).map KeywordRule.name := by
    unfold detectJavascriptLibraries
    rw [foldl_push_filter]
    simp
  have hmkt : detectMarketingTechnologies html doc
      = (marketingTechs.filter (marketingRuleFires html doc)).map MarketingRule.name := by
    unfold detectMarketingTechnologies
    rw [foldl_push_filter]
    simp
  refine ⟨hcss, hjs, hmkt, ?_, ?_, ?_⟩
  · intro r hr hor
    have hf : cssRuleFires html doc r = true := by
      unfold cssRuleFires
      rcases hor with h | h <;> simp [h]
    rw [hcss]
    exact List.mem_map_of_mem _ (List.mem_filter.mpr ⟨hr, hf⟩)
  · intro r hr hor
    have hf : jsRuleFires html doc r = true := by
      unfold jsRuleFires
      rcases hor with h | h <;> simp [h]
    rw [hjs]
    exact List.mem_map_of_mem _ (List.mem_filter.mpr ⟨hr, hf⟩)
  · intro r hr hor
    have hf : marketingRuleFires html doc r = true := by
      unfold marketingRuleFires
      rcases hor with h | h <;> simp [h]
    rw [hmkt]
    exact List.mem_map_of_mem _ (List.mem_filter.mpr ⟨hr, hf⟩)

/-- C3 witness: with HTML "bootstrap" and a document matching no selector,
the keyword substring alone makes the CSS-framework detector emit
"Bootstrap". -/
theorem multi_match_detectors_or_and_order_witness :
    "Bootstrap" ∈ detectCssFrameworks "bootstrap" docNone :=
  (multi_match_detectors_or_and_order "bootstrap" docNone).2.2.2.1
    ⟨"Bootstrap", "bootstrap"⟩ (by decide) (Or.inl (by decide))

/-- C4 (amended): each single-match detector returns the first rule in table
order whose predicate holds; on no match, CMS and e-commerce return the
literal fallback "Unknown", while the architecture detector returns its
default "MPA (Multi-Page Application)". -/
theorem single_match_first_rule_wins (html : String) (doc : DocQuery) :
    detectCMS html doc
      = (match cmsRules.find? (fun r => r.2 html doc) with
        | some r => r.1
        | none => "Unknown") ∧
    detectEcommercePlatform html doc
      = (match ecommercePlatforms.find? (fun p => ecomRuleFires html doc p) with
        | some p => p.name
        | none => "Unknown") ∧
    detectArchitecture html doc
      = (match archRules.find? (fun r => r.2 html doc) with
        | some r => r.1
        | none => "MPA (Multi-Page Application)") := by
  refine ⟨?_, rfl, ?_⟩
  · unfold detectCMS cmsRules
    by_cases h1 : (jsIncludes html "wp-content" || doc (generatorSelector "WordPress")) = true
    · simp [List.find?, h1]
    by_cases h2 : (jsIncludes html "Drupal" || doc (generatorSelector "Drupal")) = true
    · simp [List.find?, h1, h2]
    by_cases h3 : (jsIncludes html "Joomla" || doc (generatorSelector "Joomla")) = true
    · simp [List.find?, h1, h2, h3]
    by_cases h4 : (jsIncludes html "ghost" || doc (generatorSelector "Ghost")) = true
    · simp [List.find?, h1, h2, h3, h4]
    by_cases h5 : (jsIncludes html "contentful" || doc (generatorSelector "Contentful")) = true
    · simp [List.find?, h1, h2, h3, h4, h5]
    by_cases h6 : (jsIncludes html "hubspot" || doc (generatorSelector "HubSpot")) = true
    · simp [List.find?, h1, h2, h3, h4, h5, h6]
    · simp [List.find?, h1, h2, h3, h4, h5, h6]
  · unfold detectArchitecture archRules
    by_cases h1 : (doc (scriptSelector "next") || jsIncludes html "__NEXT_DATA__") = true
    · simp [List.find?, h1]
    by_cases h2 : (doc (scriptSelector "gatsby") || doc "meta[content=\"Gatsby\"]") = true
    · simp [List.find?, h1, h2]
    by_cases h3 : (doc (scriptSelector "jekyll") || doc "meta[content=\"Jekyll\"]") = true
    · simp [List.find?, h1, h2, h3]
    by_cases h4 : (doc (scriptSelector "hugo") || doc "meta[content=\"Hugo\"]") = true
    · simp [List.find?, h1, h2, h3, h4]
    by_cases h5 : (doc (scriptSelector "single-spa") || doc (scriptSelector "react")
        || jsIncludes html "window.__INITIAL_STATE__") = true
    · simp [List.find?, h1, h2, h3, h4, h5]
    by_cases h6 : (doc (scriptSelector "angular") || jsIncludes html "ng-version") = true
    · simp [List.find?, h1, h2, h3, h4, h5, h6]
    by_cases h7 : (doc (scriptSelector "vue") || jsIncludes html "window.__INITIAL_STATE__") = true
    · simp [List.find?, h1, h2, h3, h4, h5, h6, h7]
    · simp [List.find?, h1, h2, h3, h4, h5, h6, h7]

/-- C4 counterexample: on empty HTML with a document matching no selector,
no architecture rule fires, yet the architecture detector returns
"MPA (Multi-Page Application)", not the claimed fallback "Unknown". -/
theorem architecture_default_not_unknown_cex :
    (archRules.all fun r => !(r.2 "" docNone)) = true ∧
    detectArchitecture "" docNone = "MPA (Multi-Page Application)" ∧
    detectArchitecture "" docNone ≠ "Unknown" := by
  refine ⟨by decide, by decide, by decide⟩

/-- C5 (amended): when the headers carry a truthy x-amz-cf-id entry and a
truthy x-cdn-provider entry, and none of the Cloudflare markers of the
earlier branch (an x-cdn header equal to "Cloudflare" or a truthy cf-ray
header), CDN detection answers "Amazon CloudFront": the CloudFront check
precedes the generic passthrough. -/
theorem cdn_cloudfront_before_generic (hs : List (String × String))
    (hamz : headerTruthy hs "x-amz-cf-id" = true)
    (hxcdn : getHeader hs "x-cdn" ≠ some "Cloudflare")
    (hray : headerTruthy hs "cf-ray" = false)
    (_hprov : headerTruthy hs "x-cdn-provider" = true) :
    detectCdnProvider hs = "Amazon CloudFront" := by
  unfold detectCdnProvider
  have h1 : (getHeader hs "x-cdn" == some "Cloudflare" || headerTruthy hs "cf-ray") = false := by
    simp [hray, hxcdn]
  simp [h1, hamz]

/-- C5 witness: the amended statement at a concrete header map. -/
theorem cdn_cloudfront_before_generic_witness :
    detectCdnProvider cdnHeadersOk = "Amazon CloudFront" :=
  cdn_cloudfront_before_generic cdnHeadersOk (by decide) (by decide) (by decide) (by decide)

/-- C5 counterexample: a header map containing both an x-amz-cf-id header and
an x-cdn-provider header for which detectCdnProvider does not return
"Amazon CloudFront" — the earlier Cloudflare branch wins. -/
theorem cdn_priority_universal_cex :
    headerTruthy cdnHeadersCex "x-amz-cf-id" = true ∧
    headerTruthy cdnHeadersCex "x-cdn-provider" = true ∧
    detectCdnProvider cdnHeadersCex = "Cloudflare" ∧
    detectCdnProvider cdnHeadersCex ≠ "Amazon CloudFront" := by
  refine ⟨by decide, by decide, by decide, by decide⟩

/-- C1 counterexample: with a successfully fetched page and a single
extractor throwing, analyzeWebsite does not return a report at all — the
exception reaches the one outer catch and the whole analysis aborts with the
generic unexpected-error message.  There is no per-extractor catch in the
source. -/
theorem extractor_throw_aborts_whole_analysis_cex :
    analyzeWebsite (Except.ok ()) throwingExtractors ApiOutcome.networkError
      = Except.error "An unexpected error occurred while analyzing the website: boom" := by
  rfl

/-- C1 (amended): if any signal extractor throws while processing a
successfully fetched page, the exception propagates to analyzeWebsite's
single outer catch and the whole analysis aborts with the corresponding
catch-block message; no report, partial or complete, is produced. -/
theorem extractor_throw_aborts_whole_analysis (ext : Extractors) (hosting : ApiOutcome)
    (e : JsError) (h : firstExtractorError ext = some e) :
    analyzeWebsite (Except.ok ()) ext hosting = Except.error (catchDispatch e) := by
  unfold analyzeWebsite
  rw [analyzeBodyWith_char]
  simp [h]

/-- C1 witness: the amended statement at the concrete throwing extractors. -/
theorem extractor_throw_aborts_whole_analysis_witness :
    firstExtractorError throwingExtractors = some (JsError.genericError "boom") ∧
    analyzeWebsite (Except.ok ()) throwingExtractors ApiOutcome.networkError
      = Except.error (catchDispatch (JsError.genericError "boom")) :=
  ⟨rfl, extractor_throw_aborts_whole_analysis throwingExtractors ApiOutcome.networkError
    (JsError.genericError "boom") rfl⟩

/-- C2: a primary-fetch HTTP error status aborts the whole analysis with the
single thrown message "HTTP error <status>: <statusText>" (no partial
report exists, the result being an error); receiving no response throws the
distinct connectivity message; any other failure throws the generic
message — every fetch failure is fatal to the request. -/
theorem fetch_failure_fatal_messages :
    (∀ (status : Nat) (statusText : String) (ext : Extractors) (o : ApiOutcome),
      analyzeWebsite (Except.error (JsError.axiosWithResponse status statusText)) ext o
        = Except.error ("HTTP error " ++ Nat.repr status ++ ": " ++ statusText)) ∧
    (∀ (ext : Extractors) (o : ApiOutcome),
      analyzeWebsite (Except.error (JsError.axiosWithResponse 404 "Not Found")) ext o
        = Except.error "HTTP error 404: Not Found") ∧
    (∀ (ext : Extractors) (o : ApiOutcome),
      analyzeWebsite (Except.error JsError.axiosNoResponse) ext o
        = Except.error
          "No response received from the server. The website might be down or blocking our requests.") ∧
    (∀ (m : String) (ext : Extractors) (o : ApiOutcome),
      analyzeWebsite (Except.error (JsError.genericError m)) ext o
        = Except.error ("An unexpected error occurred while analyzing the website: " ++ m)) ∧
    (∀ (ext : Extractors) (o : ApiOutcome),
      analyzeWebsite (Except.error JsError.nonError) ext o
        = Except.error "An unexpected error occurred while analyzing the website.") := by
  refine ⟨?_, ?_, ?_, ?_, ?_⟩ <;> intros <;> rfl

/-- C6: the hosting lookup is a total function of the API outcome — on a 200
result code with a non-empty results list it returns "Provider: <ispName>"
from the first result, and on every API-level failure it returns one of the
two fixed sentinels; substituting one lookup outcome for another never
changes whether the analysis succeeds nor any report field other than
hosting_provider. -/
theorem hosting_lookup_never_throws :
    (∀ (b : ApiBody) (isp : String) (rest : List String),
      b.result = some 200 → b.results = some (isp :: rest) →
      detectHostingProvider (ApiOutcome.response b) = "Provider: " ++ isp) ∧
    (∀ o : ApiOutcome,
      (∃ isp, detectHostingProvider o = "Provider: " ++ isp) ∨
      detectHostingProvider o = "unable to find provider" ∨
      detectHostingProvider o = "Host Finder Error") ∧
    (∀ (b : ApiBody) (code : Nat), b.result = some code → code ≠ 200 →
      detectHostingProvider (ApiOutcome.response b) = "unable to find provider") ∧
    (∀ b : ApiBody, b.result = none →
      detectHostingProvider (ApiOutcome.response b) = "Host Finder Error") ∧
    detectHostingProvider ApiOutcome.networkError = "Host Finder Error" ∧
    (∀ (fetch : Except JsError Unit) (ext : Extractors) (o o' : ApiOutcome),
      (analyzeWebsite fetch ext o).map reportSansHosting
        = (analyzeWebsite fetch ext o').map reportSansHosting) := by
  refine ⟨?_, ?_, ?_, ?_, rfl, ?_⟩
  · intro b isp rest h1 h2
    simp [detectHostingProvider, h1, h2]
  · intro o
    cases o with
    | networkError => exact Or.inr (Or.inr rfl)
    | response b =>
      rcases hr : b.result with _ | code
      · exact Or.inr (Or.inr (by simp [detectHostingProvider, hr]))
      by_cases hc : code = 200
      · subst hc
        rcases hres : b.results with _ | l
        · exact Or.inr (Or.inl (by simp [detectHostingProvider, hr, hres]))
        rcases l with _ | ⟨isp, rest⟩
        · exact Or.inr (Or.inl (by simp [detectHostingProvider, hr, hres]))
        · exact Or.inl ⟨isp, by simp [detectHostingProvider, hr, hres]⟩
      · exact Or.inr (Or.inl (by simp [detectHostingProvider, hr, hc]))
  · intro b code h1 h2
    simp [detectHostingProvider, h1, h2]
  · intro b h1
    simp [detectHostingProvider, h1]
  · intro fetch ext o o'
    unfold analyzeWebsite
    rw [analyzeBodyWith_char, analyzeBodyWith_char]
    cases fetch with
    | error e => rfl
    | ok u =>
      cases hfe : firstExtractorError ext with
      | some e => rfl
      | none => rfl

/-- C6 witness: the success shape at a concrete API body. -/
theorem hosting_lookup_never_throws_witness :
    detectHostingProvider (ApiOutcome.response ⟨some 200, some ["Amazon"]⟩)
      = "Provider: " ++ "Amazon" :=
  hosting_lookup_never_throws.1 ⟨some 200, some ["Amazon"]⟩ "Amazon" [] rfl rfl

/-- C7: a scalar category (hosting, CDN, CMS, e-commerce, architecture)
whose value is the sentinel "Unknown" contributes no edge to the diagram:
no edge under the root node B carries a label starting with that category's
tag. -/
theorem unknown_scalar_skipped_in_diagram (a : Analysis) :
    (a.hosting_provider = "Unknown" → ∀ e ∈ generateDiagramEdges a,
      e.parent = "B" → ¬ strStartsWith "Hosting: " e.label) ∧
    (a.cdn_provider = "Unknown" → ∀ e ∈ generateDiagramEdges a,
      e.parent = "B" → ¬ strStartsWith "CDN: " e.label) ∧
    (a.cms = "Unknown" → ∀ e ∈ generateDiagramEdges a,
      e.parent = "B" → ¬ strStartsWith "CMS: " e.label) ∧
    (a.ecommerce_platform = "Unknown" → ∀ e ∈ generateDiagramEdges a,
      e.parent = "B" → ¬ strStartsWith "E-commerce: " e.label) ∧
    (a.architecture = "Unknown" → ∀ e ∈ generateDiagramEdges a,
      e.parent = "B" → ¬ strStartsWith "Architecture: " e.label) := by
  refine ⟨?_, ?_, ?_, ?_, ?_⟩
  · intro hU e he hpB hsw
    rcases gde_parentB_label a e he hpB with hfix
      | ⟨hne, hl⟩ | ⟨hne, hl⟩ | ⟨hne, hl⟩ | ⟨hne, hl⟩ | ⟨hne, hl⟩
    · exact fixed_no_scalar_tag hfix (Or.inl rfl) hsw
    · exact hne hU
    · rw [hl] at hsw
      exact strStartsWith_tag_elim 2 _ (by decide) (by decide) (by decide) hsw
    · rw [hl] at hsw
      exact strStartsWith_tag_elim 2 _ (by decide) (by decide) (by decide) hsw
    · rw [hl] at hsw
      exact strStartsWith_tag_elim 2 _ (by decide) (by decide) (by decide) hsw
    · rw [hl] at hsw
      exact strStartsWith_tag_elim 2 _ (by decide) (by decide) (by decide) hsw
  · intro hU e he hpB hsw
    rcases gde_parentB_label a e he hpB with hfix
      | ⟨hne, hl⟩ | ⟨hne, hl⟩ | ⟨hne, hl⟩ | ⟨hne, hl⟩ | ⟨hne, hl⟩
    · exact fixed_no_scalar_tag hfix (Or.inr (Or.inl rfl)) hsw
    · rw [hl] at hsw
      exact strStartsWith_tag_elim 2 _ (by decide) (by decide) (by decide) hsw
    · exact hne hU
    · rw [hl] at hsw
      exact strStartsWith_tag_elim 2 _ (by decide) (by decide) (by decide) hsw
    · rw [hl] at hsw
      exact strStartsWith_tag_elim 2 _ (by decide) (by decide) (by decide) hsw
    · rw [hl] at hsw
      exact strStartsWith_tag_elim 2 _ (by decide) (by decide) (by decide) hsw
  · intro hU e he hpB hsw
    rcases gde_parentB_label a e he hpB with hfix
      | ⟨hne, hl⟩ | ⟨hne, hl⟩ | ⟨hne, hl⟩ | ⟨hne, hl⟩ | ⟨hne, hl⟩
    · exact fixed_no_scalar_tag hfix (Or.inr (Or.inr (Or.inl rfl))) hsw
    · rw [hl] at hsw
      exact strStartsWith_tag_elim 2 _ (by decide) (by decide) (by decide) hsw
    · rw [hl] at hsw
      exact strStartsWith_tag_elim 2 _ (by decide) (by decide) (by decide) hsw
    · exact hne hU
    · rw [hl] at hsw
      exact strStartsWith_tag_elim 2 _ (by decide) (by decide) (by decide) hsw
    · rw [hl] at hsw
      exact strStartsWith_tag_elim 2 _ (by decide) (by decide) (by decide) hsw
  · intro hU e he hpB hsw
    rcases gde_parentB_label a e he hpB with hfix
      | ⟨hne, hl⟩ | ⟨hne, hl⟩ | ⟨hne, hl⟩ | ⟨hne, hl⟩ | ⟨hne, hl⟩
    · exact fixed_no_scalar_tag hfix (Or.inr (Or.inr (Or.inr (Or.inl rfl)))) hsw
    · rw [hl] at hsw
      exact strStartsWith_tag_elim 2 _ (by decide) (by decide) (by decide) hsw
    · rw [hl] at hsw
      exact strStartsWith_tag_elim 2 _ (by decide) (by decide) (by decide) hsw
    · rw [hl] at hsw
      exact strStartsWith_tag_elim 2 _ (by decide) (by decide) (by decide) hsw
    · exact hne hU
    · rw [hl] at hsw
      exact strStartsWith_tag_elim 2 _ (by decide) (by decide) (by decide) hsw
  · intro hU e he hpB hsw
    rcases gde_parentB_label a e he hpB with hfix
      | ⟨hne, hl⟩ | ⟨hne, hl⟩ | ⟨hne, hl⟩ | ⟨hne, hl⟩ | ⟨hne, hl⟩
    · exact fixed_no_scalar_tag hfix (Or.inr (Or.inr (Or.inr (Or.inr rfl)))) hsw
    · rw [hl] at hsw
      exact strStartsWith_tag_elim 2 _ (by decide) (by decide) (by decide) hsw
    · rw [hl] at hsw
      exact strStartsWith_tag_elim 2 _ (by decide) (by decide) (by decide) hsw
    · rw [hl] at hsw
      exact strStartsWith_tag_elim 2 _ (by decide) (by decide) (by decide) hsw
    · rw [hl] at hsw
      exact strStartsWith_tag_elim 2 _ (by decide) (by decide) (by decide) hsw
    · exact hne hU

/-- C7 witness: on the all-Unknown report, applied to the SEO edge of its
diagram. -/
theorem unknown_scalar_skipped_in_diagram_witness :
    ¬ strStartsWith "CMS: " (⟨"B", nodeName 1, "SEO Analysis", false⟩ : DiagEdge).label :=
  (unknown_scalar_skipped_in_diagram allUnknownAnalysis).2.2.1 rfl
    ⟨"B", nodeName 1, "SEO Analysis", false⟩ (by decide) rfl

/-- C8 (amended): escaping replaces every double quote, and every quoted
label of the diagram is either quote-free (list items and scalar values are
passed through the escaping) or a social-link label, which embeds the href
verbatim with no escaping. -/
theorem labels_quote_escaped_except_social :
    (∀ s : String, dquoteChar ∉ (escapeQuotes s).data) ∧
    (∀ (a : Analysis) (e : DiagEdge), e ∈ generateDiagramEdges a → e.quoted = true →
      dquoteChar ∉ e.label.data ∨ ∃ l, e.label = socialLabel l) := by
  refine ⟨escapeQuotes_no_dquote, ?_⟩
  intro a e he hq
  rcases gde_quoted_label a e he hq with ⟨s, hl⟩ | ⟨t, s, ht, hl⟩ | ⟨l, hl⟩
  · left
    rw [hl]
    exact escapeQuotes_no_dquote s
  · left
    rw [hl]
    intro hmem
    rw [String.data_append] at hmem
    rcases List.mem_append.mp hmem with hmem | hmem
    · rcases ht with rfl | rfl | rfl | rfl | rfl <;> revert hmem <;> decide
    · exact escapeQuotes_no_dquote s hmem
  · right
    exact ⟨l, hl⟩

set_option maxRecDepth 8000 in
/-- C8 counterexample: a social-link href containing a double quote is
embedded verbatim — the diagram contains an edge whose label carries an
unescaped double quote, and the label occurs in the rendered text. -/
theorem social_link_quote_unescaped_cex :
    (⟨"N1", "N2", socialLabel quoteLink, true⟩ : DiagEdge)
      ∈ generateDiagramEdges socialCexAnalysis ∧
    dquoteChar ∈ (socialLabel quoteLink).data ∧
    jsIncludes (generateArchitectureDiagram socialCexAnalysis) (socialLabel quoteLink) = true := by
  refine ⟨by decide, by decide, by decide⟩

/-- C9: the node identifiers of the child ends of all generated edges are
the rendering of one strictly increasing run of counter values — pairwise
distinct and in strictly increasing numeric order of emission. -/
theorem diagram_node_ids_distinct_increasing (a : Analysis) :
    ∃ ns : List Nat,
      (generateDiagramEdges a).map DiagEdge.child = ns.map nodeName ∧
      ns.Pairwise (· < ·) ∧
      ((generateDiagramEdges a).map DiagEdge.child).Nodup := by
  obtain ⟨k, hk⟩ := gde_children a
  refine ⟨List.range' 1 k, hk, List.pairwise_lt_range' 1 k, ?_⟩
  rw [hk]
  exact List.Nodup.map (fun x y hxy => nodeName_inj hxy) (List.nodup_range' 1 k)

lemma scalarEdge_self_mem (v tag : String) (n : Nat) (h1 : v ≠ "") (h2 : v ≠ "Unknown") :
    (⟨"B", nodeName n, tag ++ escapeQuotes v, true⟩ : DiagEdge) ∈ (scalarEdge v tag n).1 := by
  rw [scalarEdge, if_pos (And.intro h1 h2)]
  exact List.mem_singleton.mpr rfl

lemma hosting_edge_mem (a : Analysis) (h1 : a.hosting_provider ≠ "")
    (h2 : a.hosting_provider ≠ "Unknown") :
    ∃ n, (⟨"B", nodeName n, "Hosting: " ++ escapeQuotes a.hosting_provider, true⟩ : DiagEdge)
      ∈ generateDiagramEdges a := by
  apply Exists.intro
  simp only [generateDiagramEdges]
  apply List.mem_append_left
  apply List.mem_append_left
  apply List.mem_append_left
  apply List.mem_append_left
  apply List.mem_append_left
  apply List.mem_append_left
  apply List.mem_append_left
  apply List.mem_append_right
  exact scalarEdge_self_mem _ _ _ h1 h2

/-- C10: the hosting lookup never returns "Unknown" (nor the empty string),
and a report holding either failure sentinel still gets its
"Hosting: <sentinel>" edge — the skip test compares only against
"Unknown". -/
theorem hosting_sentinel_still_in_diagram :
    (∀ o : ApiOutcome,
      detectHostingProvider o ≠ "Unknown" ∧ detectHostingProvider o ≠ "") ∧
    (∀ a : Analysis,
      a.hosting_provider = "unable to find provider" ∨
        a.hosting_provider = "Host Finder Error" →
      ∃ n, (⟨"B", nodeName n, "Hosting: " ++ a.hosting_provider, true⟩ : DiagEdge)
        ∈ generateDiagramEdges a) := by
  constructor
  · intro o
    cases o with
    | networkError => exact ⟨by decide, by decide⟩
    | response b =>
      rcases hr : b.result with _ | code
      · have hev : detectHostingProvider (ApiOutcome.response b) = "Host Finder Error" := by
          simp [detectHostingProvider, hr]
        rw [hev]
        exact ⟨by decide, by decide⟩
      by_cases hc : code = 200
      · subst hc
        rcases hres : b.results with _ | l
        · have hev : detectHostingProvider (ApiOutcome.response b)
              = "unable to find provider" := by
            simp [detectHostingProvider, hr, hres]
          rw [hev]
          exact ⟨by decide, by decide⟩
        rcases l with _ | ⟨isp, rest⟩
        · have hev : detectHostingProvider (ApiOutcome.response b)
              = "unable to find provider" := by
            simp [detectHostingProvider, hr, hres]
          rw [hev]
          exact ⟨by decide, by decide⟩
        · have hev : detectHostingProvider (ApiOutcome.response b) = "Provider: " ++ isp := by
            simp [detectHostingProvider, hr, hres]
          rw [hev]
          have e1 : ("Provider: " : String).length = 10 := by decide
          have e2 : ("Unknown" : String).length = 7 := by decide
          have e3 : ("" : String).length = 0 := by decide
          refine ⟨?_, ?_⟩ <;> intro hcontra
          · have hl2 := congrArg String.length hcontra
            rw [String.length_append, e1, e2] at hl2
            omega
          · have hl2 := congrArg String.length hcontra
            rw [String.length_append, e1, e3] at hl2
            omega
      · have hev : detectHostingProvider (ApiOutcome.response b)
            = "unable to find provider" := by
          simp [detectHostingProvider, hr, hc]
        rw [hev]
        exact ⟨by decide, by decide⟩
  · intro a h
    have h1 : a.hosting_provider ≠ "" := by
      rcases h with h | h <;> rw [h] <;> decide
    have h2 : a.hosting_provider ≠ "Unknown" := by
      rcases h with h | h <;> rw [h] <;> decide
    have hesc : escapeQuotes a.hosting_provider = a.hosting_provider := by
      rcases h with h | h <;> rw [h] <;> decide
    obtain ⟨n, hn⟩ := hosting_edge_mem a h1 h2
    rw [hesc] at hn
    exact ⟨n, hn⟩

/-- C10 witness: the sentinel report gets its hosting edge. -/
theorem hosting_sentinel_still_in_diagram_witness :
    ∃ n, (⟨"B", nodeName n,
        "Hosting: " ++ hostingSentinelAnalysis.hosting_provider, true⟩ : DiagEdge)
      ∈ generateDiagramEdges hostingSentinelAnalysis :=
  hosting_sentinel_still_in_diagram.2 hostingSentinelAnalysis (Or.inl rfl)

/-- C8 witness part: the amended statement applied at a concrete report and
edge — the hosting edge of the sentinel report has no double quote in its
label. -/
theorem labels_quote_escaped_except_social_witness :
    dquoteChar ∉ (escapeQuotes (String.mk ['a', dquoteChar, 'b'])).data ∧
    (dquoteChar ∉ (⟨"B", nodeName 1,
        "Hosting: " ++ escapeQuotes "unable to find provider", true⟩ : DiagEdge).label.data ∨
      ∃ l, (⟨"B", nodeName 1,
        "Hosting: " ++ escapeQuotes "unable to find provider", true⟩ : DiagEdge).label
          = socialLabel l) :=
  ⟨labels_quote_escaped_except_social.1 (String.mk ['a', dquoteChar, 'b']),
   labels_quote_escaped_except_social.2 hostingSentinelAnalysis
     ⟨"B", nodeName 1, "Hosting: " ++ escapeQuotes "unable to find provider", true⟩
     (by decide) rfl⟩

end WebAnalyzer
